import Mathlib

/-!
# Verification of the auth service's session lifecycle engine

Shallow embedding of the Go auth service (`pkg/service/auth_service.go`,
`pkg/repository/auth_repository.go`, `pkg/models`) and proofs about its
login / validate / refresh / logout / change-password operations.

Modelling conventions:
* The persistent store (`gorm` over MySQL/SQLite) is modelled as in-memory
  lists of rows; `First` becomes `List.find?`, `Save` (gorm v2 upsert by
  primary key) becomes replace-by-key-or-append, `Delete` becomes `filter`
  (gorm's `Delete` reports no error when zero rows match).
* Wall-clock time is an explicit `Nat` parameter (seconds).
* Randomly generated values (refresh tokens, UUIDs) are explicit parameters.
* The `utils` package (JWT codec, bcrypt hasher) is not part of the sources;
  those functions are modelled from the spec, as marked on each definition.
-/

namespace AuthService

/-- `models.User` (pkg/models): identity scoped to one client. -/
structure User where
  userId : String
  userName : String
  emailId : String
  password : String
  clientId : String
deriving DecidableEq, Repr

/-- `models.Client` (pkg/models): a tenant application. -/
structure Client where
  clientId : String
  clientName : String
  clientSecret : String
deriving DecidableEq, Repr

/-- `models.Session` (pkg/models): one live refresh credential, keyed by the
composite primary key `(userId, clientId)`. -/
structure Session where
  userId : String
  clientId : String
  refreshToken : String
  userAgent : String
  expiresAt : Nat
deriving DecidableEq, Repr

/-- The persistent state behind `AuthRepository`: the three tables. -/
structure Store where
  users : List User
  clients : List Client
  sessions : List Session
deriving DecidableEq, Repr

/-! ## Repository layer (`pkg/repository/auth_repository.go`) -/

/-- `GetUserByEmail`: `WHERE email_id = ?` then `First`. -/
def getUserByEmail (db : Store) (email : String) : Option User :=
  db.users.find? (fun u => u.emailId == email)

/-- `GetUserByID`: `WHERE user_id = ?` then `First`. -/
def getUserByID (db : Store) (userID : String) : Option User :=
  db.users.find? (fun u => u.userId == userID)

/-- `CreateUser`: insert a row. -/
def createUser (db : Store) (user : User) : Store :=
  { db with users := db.users ++ [user] }

/-- `UpdateUser`: gorm `Save`, an upsert keyed by the primary key `user_id`. -/
def updateUser (db : Store) (user : User) : Store :=
  let replaced := db.users.map (fun u => if u.userId == user.userId then user else u)
  if db.users.any (fun u => u.userId == user.userId) then
    { db with users := replaced }
  else
    { db with users := db.users ++ [user] }

/-- `CreateOrUpdateSession`: gorm `Save`, an upsert keyed by the composite
primary key `(user_id, client_id)`. -/
def createOrUpdateSession (db : Store) (s : Session) : Store :=
  let replaced := db.sessions.map
    (fun t => if t.userId == s.userId && t.clientId == s.clientId then s else t)
  if db.sessions.any (fun t => t.userId == s.userId && t.clientId == s.clientId) then
    { db with sessions := replaced }
  else
    { db with sessions := db.sessions ++ [s] }

/-- `GetSessionByUserAndClient`:
`WHERE user_id = ? AND client_id = ? AND expires_at > ?` with `time.Now()`. -/
def getSessionByUserAndClient (db : Store) (userID clientID : String) (now : Nat) :
    Option Session :=
  db.sessions.find? (fun s => s.userId == userID && s.clientId == clientID
    && decide (now < s.expiresAt))

/-- `GetSessionByRefreshToken`:
`WHERE refresh_token = ? AND expires_at > ?` with `time.Now()`. -/
def getSessionByRefreshToken (db : Store) (refreshToken : String) (now : Nat) :
    Option Session :=
  db.sessions.find? (fun s => s.refreshToken == refreshToken && decide (now < s.expiresAt))

/-- `DeleteSessionByRefreshToken`: `DELETE ... WHERE refresh_token = ?`.
gorm reports no error when zero rows match, so this is total. -/
def deleteSessionByRefreshToken (db : Store) (refreshToken : String) : Store :=
  { db with sessions := db.sessions.filter (fun s => !(s.refreshToken == refreshToken)) }

/-- `DeleteAllUserSessions`: `DELETE ... WHERE user_id = ?`. -/
def deleteAllUserSessions (db : Store) (userID : String) : Store :=
  { db with sessions := db.sessions.filter (fun s => !(s.userId == userID)) }

/-- `DeleteExpiredSessions`: `DELETE ... WHERE expires_at < ?` with `time.Now()`. -/
def deleteExpiredSessions (db : Store) (now : Nat) : Store :=
  { db with sessions := db.sessions.filter (fun s => !(decide (s.expiresAt < now))) }

/-- `IsEmailExists`: `COUNT(*) WHERE email_id = ?` compared with `0`.
Note: the query filters by email only, with no client-id condition. -/
def isEmailExists (db : Store) (email : String) : Bool :=
  db.users.any (fun u => u.emailId == email)

/-- `IsClientExists`: `COUNT(*) WHERE client_id = ?` compared with `0`. -/
def isClientExists (db : Store) (clientID : String) : Bool :=
  db.clients.any (fun c => c.clientId == clientID)

/-! ## Token codec and password hasher (`pkg/utils`, modelled from the spec) -/

/-- Claims carried by an access credential (spec section 4.2): user id,
username, client id, the refresh value bound at issuance, expiry. -/
structure Claims where
  userID : String
  username : String
  clientID : String
  refreshToken : String
  expiresAt : Nat
deriving DecidableEq, Repr

/-- Modelled from the spec: the symmetric signature over the claims produced
with the process-wide secret; any field tampering changes it. -/
def signClaims (secret : String) (c : Claims) : String :=
  secret ++ "#" ++ c.userID ++ "#" ++ c.username ++ "#" ++ c.clientID ++ "#"
    ++ c.refreshToken ++ "#" ++ toString c.expiresAt

/-- A signed access credential: its claims plus the signature. -/
structure Token where
  claims : Claims
  sig : String
deriving DecidableEq, Repr

/-- The fixed access-credential validity window (spec section 4.2: 24 hours). -/
def accessTokenWindow : Nat := 24 * 3600

/-- The session validity window (spec section 4.4: now + 7 days). -/
def sevenDays : Nat := 7 * 24 * 3600

/-- Modelled from the spec: `utils.GenerateJWTToken` (not under the sources) —
issue a signed credential carrying the identity claims and the bound refresh
value, expiring a fixed 24-hour window after `now`. -/
def generateJWTToken (secret : String) (now : Nat)
    (userID username clientID refreshToken : String) : Token × Nat :=
  let c : Claims := ⟨userID, username, clientID, refreshToken, now + accessTokenWindow⟩
  (⟨c, signClaims secret c⟩, now + accessTokenWindow)

/-- Decode errors of the token codec (spec section 4.2). -/
inductive TokenError where
  | invalid
  | expired
deriving DecidableEq, Repr

/-- Modelled from the spec: `utils.ValidateJWTToken` (not under the sources) —
fails `invalid` when the signature does not verify, `expired` when the
signature is valid but the expiry has passed, and otherwise returns the claims. -/
def validateJWTToken (secret : String) (now : Nat) (t : Token) :
    Except TokenError Claims :=
  if t.sig ≠ signClaims secret t.claims then .error .invalid
  else if t.claims.expiresAt ≤ now then .error .expired
  else .ok t.claims

/-- Modelled from the spec: `utils.HashPassword` (not under the sources) — a
one-way hash whose output is stored as opaque text and never equals the
plaintext. -/
def hashPassword (p : String) : String := "bcrypt$" ++ p

/-- Modelled from the spec: `utils.CheckPasswordHash` (not under the sources) —
verification of a plaintext against a stored hash; true exactly on the hash of
the plaintext. -/
def checkPasswordHash (p hash : String) : Bool := hash == hashPassword p

/-! ## Service layer (`pkg/service/auth_service.go`) -/

/-- Character class `[a-zA-Z0-9._%+-]` of the local part of the email regex. -/
def isLocalChar (c : Char) : Bool :=
  c.isAlpha || c.isDigit || c == '.' || c == '_' || c == '%' || c == '+' || c == '-'

/-- Character class `[a-zA-Z0-9.-]` of the domain part of the email regex. -/
def isDomainChar (c : Char) : Bool :=
  c.isAlpha || c.isDigit || c == '.' || c == '-'

/-- `strings.TrimSpace` on the character list: drop leading and trailing
whitespace. -/
def trimChars (l : List Char) : List Char :=
  ((l.dropWhile Char.isWhitespace).reverse.dropWhile Char.isWhitespace).reverse

/-- Split a character list at its last occurrence of `sep`, if any. -/
def breakAtLast (sep : Char) (l : List Char) : Option (List Char × List Char) :=
  match (l.reverse.span (fun c => !(c == sep))) with
  | (sufRev, sepAndRest) =>
    match sepAndRest with
    | [] => none
    | _ :: restRev => some (restRev.reverse, sufRev.reverse)

/-- `isValidEmail`: trims whitespace, then matches the anchored pattern
`[a-zA-Z0-9._%+-]+ "@" [a-zA-Z0-9.-]+ "." [a-zA-Z]{2,}`.  Since `@` occurs
in no character class the string must contain exactly one `@`, and since the
final alphabetic run admits no dot, the separating dot of the domain is the
last dot. -/
def isValidEmail (email : String) : Bool :=
  let l := trimChars email.toList
  match l.span (fun c => !(c == '@')) with
  | (loc, atAndDom) =>
    match atAndDom with
    | [] => false
    | _ :: dom =>
      !loc.isEmpty && loc.all isLocalChar && !dom.contains '@' &&
      (match breakAtLast '.' dom with
       | some (d, t) =>
         !d.isEmpty && d.all isDomainChar && decide (2 ≤ t.length) && t.all Char.isAlpha
       | none => false)

/-- `RegisterUserRequest` (proto). -/
structure RegisterUserRequest where
  username : String
  email : String
  password : String
  clientId : String
deriving DecidableEq, Repr

/-- `validateUserRegistration`: first failing check wins; `none` means valid.
Password length is Go's `len`, i.e. the UTF-8 byte count. -/
def validateUserRegistration (req : RegisterUserRequest) : Option String :=
  if req.username = "" then some "username is required"
  else if req.email = "" then some "email is required"
  else if ¬ isValidEmail req.email then some "invalid email format"
  else if req.password = "" then some "password is required"
  else if req.password.utf8ByteSize < 8 then some "password must be at least 8 characters long"
  else if req.clientId = "" then some "client ID is required"
  else none

/-- `RegisterUserResponse` (proto): absent fields carry proto zero values. -/
structure RegisterUserResponse where
  success : Bool
  message : String
  userId : String
deriving DecidableEq, Repr

/-- `RegisterUser`: validation, client existence, global email-existence probe,
hash, insert.  The freshly generated UUID is the explicit `genUserId`. -/
def registerUser (db : Store) (genUserId : String) (req : RegisterUserRequest) :
    RegisterUserResponse × Store :=
  match validateUserRegistration req with
  | some msg => (⟨false, msg, ""⟩, db)
  | none =>
    if ¬ isClientExists db req.clientId then
      (⟨false, "Invalid client ID", ""⟩, db)
    else if isEmailExists db req.email then
      (⟨false, "Email already registered", ""⟩, db)
    else
      let user : User := ⟨genUserId, req.username, req.email,
        hashPassword req.password, req.clientId⟩
      (⟨true, "User registered successfully", genUserId⟩, createUser db user)

/-- `LoginUserRequest` (proto). -/
structure LoginUserRequest where
  email : String
  password : String
  clientId : String
  userAgent : String
deriving DecidableEq, Repr

/-- Public user profile returned to callers (no password field). -/
structure UserProfile where
  userId : String
  username : String
  email : String
  clientId : String
deriving DecidableEq, Repr

/-- `LoginUserResponse` (proto). -/
structure LoginUserResponse where
  success : Bool
  message : String
  accessToken : Option Token
  refreshToken : String
  expiresAt : Nat
  user : Option UserProfile
deriving DecidableEq, Repr

/-- A failed `LoginUser` response: only `success` and `message` set. -/
def loginFailure (msg : String) : LoginUserResponse :=
  ⟨false, msg, none, "", 0, none⟩

/-- `LoginUser`: required-field check, client existence, user by email,
client-scope check, password verification; on success issue the credential
pair and upsert the `(user, client)` session with expiry `now + 7 days`.
The freshly generated random refresh value is the explicit `freshRefresh`. -/
def loginUser (db : Store) (secret : String) (now : Nat) (freshRefresh : String)
    (req : LoginUserRequest) : LoginUserResponse × Store :=
  if req.email = "" ∨ req.password = "" ∨ req.clientId = "" then
    (loginFailure "Email, password, and client ID are required", db)
  else if ¬ isClientExists db req.clientId then
    (loginFailure "Invalid client ID", db)
  else
    match getUserByEmail db req.email with
    | none => (loginFailure "Invalid credentials", db)
    | some user =>
      if user.clientId ≠ req.clientId then
        (loginFailure "Invalid credentials", db)
      else if ¬ checkPasswordHash req.password user.password then
        (loginFailure "Invalid credentials", db)
      else
        let issued := generateJWTToken secret now user.userId user.userName
          user.clientId freshRefresh
        let session : Session := ⟨user.userId, user.clientId, freshRefresh,
          req.userAgent, now + sevenDays⟩
        let profile : UserProfile := ⟨user.userId, user.userName, user.emailId, user.clientId⟩
        (⟨true, "Login successful", some issued.1, freshRefresh, issued.2, some profile⟩,
          createOrUpdateSession db session)

/-- `ValidateTokenResponse` (proto). -/
structure ValidateTokenResponse where
  valid : Bool
  message : String
  userId : String
  expiresAt : Nat
deriving DecidableEq, Repr

/-- `ValidateToken`: empty check, decode, user re-fetch by decoded id,
username and client-id cross-checks, then the session-binding check: the
active session of `(user, client)` must carry the refresh value embedded in
the credential.  The missing access token (empty string) is `none`. -/
def validateToken (db : Store) (secret : String) (now : Nat)
    (accessToken : Option Token) : ValidateTokenResponse :=
  match accessToken with
  | none => ⟨false, "Access token is required", "", 0⟩
  | some tok =>
    match validateJWTToken secret now tok with
    | .error _ => ⟨false, "Invalid token", "", 0⟩
    | .ok claims =>
      match getUserByID db claims.userID with
      | none => ⟨false, "User not found", "", 0⟩
      | some user =>
        if user.userName ≠ claims.username then
          ⟨false, "Invalid token claims", "", 0⟩
        else if user.clientId ≠ claims.clientID then
          ⟨false, "Invalid token claims", "", 0⟩
        else
          match getSessionByUserAndClient db user.userId user.clientId now with
          | none => ⟨false, "Invalid session", "", 0⟩
          | some session =>
            if session.refreshToken ≠ claims.refreshToken then
              ⟨false, "Invalid session", "", 0⟩
            else
              ⟨true, "Token is valid", user.userId, claims.expiresAt⟩

/-- `RefreshTokenRequest` (proto). -/
structure RefreshTokenRequest where
  refreshToken : String
  clientId : String
deriving DecidableEq, Repr

/-- `RefreshTokenResponse` (proto). -/
structure RefreshTokenResponse where
  success : Bool
  message : String
  accessToken : Option Token
  refreshToken : String
  expiresAt : Nat
deriving DecidableEq, Repr

/-- A failed `RefreshToken` response: only `success` and `message` set. -/
def refreshFailure (msg : String) : RefreshTokenResponse :=
  ⟨false, msg, none, "", 0⟩

/-- `RefreshToken`: required-field check, session lookup by refresh value
(expiry-filtered), user lookup, client check against the user record, then
rotation: new refresh value, new access credential bound to it, session
upserted with the new value and expiry `now + 7 days`. -/
def refreshToken (db : Store) (secret : String) (now : Nat) (freshRefresh : String)
    (req : RefreshTokenRequest) : RefreshTokenResponse × Store :=
  if req.refreshToken = "" ∨ req.clientId = "" then
    (refreshFailure "Refresh token and client ID are required", db)
  else
    match getSessionByRefreshToken db req.refreshToken now with
    | none => (refreshFailure "Invalid refresh token", db)
    | some session =>
      match getUserByID db session.userId with
      | none => (refreshFailure "User not found", db)
      | some user =>
        if user.clientId ≠ req.clientId then
          (refreshFailure "Invalid client ID", db)
        else
          let issued := generateJWTToken secret now user.userId user.userName
            user.clientId freshRefresh
          let session₂ : Session :=
            { session with
                refreshToken := freshRefresh
                expiresAt := now + sevenDays }
          (⟨true, "Token refreshed successfully", some issued.1, freshRefresh, issued.2⟩,
            createOrUpdateSession db session₂)

/-- `LogoutUserResponse` (proto). -/
structure LogoutUserResponse where
  success : Bool
  message : String
deriving DecidableEq, Repr

/-- `LogoutUser`: required-field check, then delete by refresh value.  gorm's
`Delete` reports no error when no row matches, so the error branch of the
source (message "Invalid refresh token") is reachable only on a store failure,
which the store model does not exhibit. -/
def logoutUser (db : Store) (refreshTokenValue : String) : LogoutUserResponse × Store :=
  if refreshTokenValue = "" then
    (⟨false, "Refresh token is required"⟩, db)
  else
    (⟨true, "Logged out successfully"⟩, deleteSessionByRefreshToken db refreshTokenValue)

/-- `GetUserProfileResponse` (proto). -/
structure GetUserProfileResponse where
  success : Bool
  message : String
  user : Option UserProfile
deriving DecidableEq, Repr

/-- `GetUserProfile`: empty check, decode, user lookup by decoded id, return
profile.  No username/client-id cross-checks and no session lookup. -/
def getUserProfile (db : Store) (secret : String) (now : Nat)
    (accessToken : Option Token) : GetUserProfileResponse :=
  match accessToken with
  | none => ⟨false, "Access token is required", none⟩
  | some tok =>
    match validateJWTToken secret now tok with
    | .error _ => ⟨false, "Invalid token", none⟩
    | .ok claims =>
      match getUserByID db claims.userID with
      | none => ⟨false, "User not found", none⟩
      | some user =>
        ⟨true, "User profile retrieved successfully",
          some ⟨user.userId, user.userName, user.emailId, user.clientId⟩⟩

/-- `ChangePasswordResponse` (proto). -/
structure ChangePasswordResponse where
  success : Bool
  message : String
deriving DecidableEq, Repr

/-- `ChangePassword`: required-field check, decode, user lookup by decoded id,
current-password verification, re-hash and persist, then delete all of the
user's sessions.  Note: no username or client-id cross-check against the
claims. -/
def changePassword (db : Store) (secret : String) (now : Nat)
    (accessToken : Option Token) (currentPassword newPassword : String) :
    ChangePasswordResponse × Store :=
  if accessToken = none ∨ currentPassword = "" ∨ newPassword = "" then
    (⟨false, "Access token, current password, and new password are required"⟩, db)
  else
    match accessToken with
    | none => (⟨false, "Access token, current password, and new password are required"⟩, db)
    | some tok =>
      match validateJWTToken secret now tok with
      | .error _ => (⟨false, "Invalid access token"⟩, db)
      | .ok claims =>
        match getUserByID db claims.userID with
        | none => (⟨false, "User not found"⟩, db)
        | some user =>
          if ¬ checkPasswordHash currentPassword user.password then
            (⟨false, "Current password is incorrect"⟩, db)
          else
            let user₂ : User := { user with password := hashPassword newPassword }
            let db₂ := deleteAllUserSessions (updateUser db user₂) user.userId
            (⟨true, "Password changed successfully. Please log in again."⟩, db₂)

/-! ## Helper lemmas -/

/-- `find?` returns `a` when `a` is a member satisfying the predicate and is
the only member doing so. -/
theorem find?_eq_some_unique {α : Type} {l : List α} {p : α → Bool} {a : α}
    (hmem : a ∈ l) (hpa : p a = true) (huniq : ∀ x ∈ l, p x = true → x = a) :
    l.find? p = some a := by
  induction l with
  | nil => cases hmem
  | cons b t ih =>
    cases List.mem_cons.mp hmem with
    | inl h =>
      subst h
      simp [List.find?, hpa]
    | inr h =>
      by_cases hb : p b = true
      · have : b = a := huniq b (List.mem_cons_self b t) hb
        subst this
        simp [List.find?, hb]
      · simp only [List.find?, Bool.not_eq_true] at hb ⊢
        rw [hb]
        exact ih h (fun x hx hpx => huniq x (List.mem_cons_of_mem b hx) hpx)

/-- In a list pairwise-distinct under `f`, equal `f`-values force equal
elements. -/
theorem pairwise_key_inj {α β : Type} (f : α → β) {l : List α}
    (hp : List.Pairwise (fun a b => f a ≠ f b) l) :
    ∀ x ∈ l, ∀ y ∈ l, f x = f y → x = y := by
  induction l with
  | nil => intro x hx; cases hx
  | cons b t ih =>
    rw [List.pairwise_cons] at hp
    intro x hx y hy hxy
    cases List.mem_cons.mp hx with
    | inl hxb =>
      cases List.mem_cons.mp hy with
      | inl hyb => rw [hxb, hyb]
      | inr hyt => exact absurd (hxb ▸ hxy) (hp.1 y hyt)
    | inr hxt =>
      cases List.mem_cons.mp hy with
      | inl hyb => exact absurd (hyb ▸ hxy).symm (hp.1 x hxt)
      | inr hyt => exact ih hp.2 x hxt y hyt hxy

/-- The users table is untouched by record updates of the sessions field, and
`updateUser` leaves the sessions table unchanged. -/
theorem updateUser_sessions (db : Store) (u : User) :
    (updateUser db u).sessions = db.sessions := by
  unfold updateUser
  split <;> rfl

/-! ## Claim theorems -/

/-- C8: the two store session lookups return a session only when its
`expires_at` is strictly in the future at lookup time; when every matching
stored row has already expired, both lookups return nothing. -/
theorem session_lookups_filter_expired (db : Store)
    (userID clientID refreshValue : String) (now : Nat) :
    (∀ s : Session, getSessionByUserAndClient db userID clientID now = some s →
      now < s.expiresAt) ∧
    (∀ s : Session, getSessionByRefreshToken db refreshValue now = some s →
      now < s.expiresAt) ∧
    ((∀ s ∈ db.sessions, s.userId = userID → s.clientId = clientID → s.expiresAt ≤ now) →
      getSessionByUserAndClient db userID clientID now = none) ∧
    ((∀ s ∈ db.sessions, s.refreshToken = refreshValue → s.expiresAt ≤ now) →
      getSessionByRefreshToken db refreshValue now = none) := by
  refine ⟨?_, ?_, ?_, ?_⟩
  · intro s h
    have hp := List.find?_some h
    simp only [Bool.and_eq_true, decide_eq_true_eq] at hp
    exact hp.2
  · intro s h
    have hp := List.find?_some h
    simp only [Bool.and_eq_true, decide_eq_true_eq] at hp
    exact hp.2
  · intro h
    rw [getSessionByUserAndClient, List.find?_eq_none]
    intro s hs
    simp only [Bool.and_eq_true, decide_eq_true_eq, beq_iff_eq, not_and]
    intro h₁
    exact Nat.not_lt.mpr (h s hs h₁.1 h₁.2)
  · intro h
    rw [getSessionByRefreshToken, List.find?_eq_none]
    intro s hs
    simp only [Bool.and_eq_true, decide_eq_true_eq, beq_iff_eq, not_and]
    intro h₁
    exact Nat.not_lt.mpr (h s hs h₁)

/-- Concrete exercise of `session_lookups_filter_expired`: a stored but
expired session is invisible to both lookups. -/
theorem session_lookups_filter_expired_witness :
    getSessionByUserAndClient ⟨[], [], [⟨"u1", "c1", "r1", "ua", 3⟩]⟩ "u1" "c1" 5 = none ∧
    getSessionByRefreshToken ⟨[], [], [⟨"u1", "c1", "r1", "ua", 3⟩]⟩ "r1" 5 = none :=
  ⟨(session_lookups_filter_expired ⟨[], [], [⟨"u1", "c1", "r1", "ua", 3⟩]⟩
      "u1" "c1" "r1" 5).2.2.1 (by decide),
   (session_lookups_filter_expired ⟨[], [], [⟨"u1", "c1", "r1", "ua", 3⟩]⟩
      "u1" "c1" "r1" 5).2.2.2 (by decide)⟩

/-- C9: `GetUserProfile` succeeds for every access token that decodes (valid
signature, unexpired) to a user id resolving to an existing user, independent
of the sessions table: no username/client-id cross-check and no session
lookup happens, so a credential whose session was logged out, rotated or
deleted still retrieves the profile. -/
theorem get_user_profile_skips_session_checks (db : Store) (secret : String)
    (now : Nat) (tok : Token) (c : Claims) (u : User)
    (hdec : validateJWTToken secret now tok = .ok c)
    (huser : getUserByID db c.userID = some u) :
    ∀ sessions₂ : List Session,
      getUserProfile { db with sessions := sessions₂ } secret now (some tok) =
        ⟨true, "User profile retrieved successfully",
          some ⟨u.userId, u.userName, u.emailId, u.clientId⟩⟩ := by
  intro sessions₂
  have huser₂ : getUserByID { db with sessions := sessions₂ } c.userID = some u := huser
  simp only [getUserProfile, hdec, huser₂]

/-- Concrete exercise of `get_user_profile_skips_session_checks`: with an
empty sessions table (e.g. right after logout) and even a mismatched embedded
username, the profile is still returned. -/
theorem get_user_profile_skips_session_checks_witness :
    getUserProfile ⟨[⟨"u1", "alice", "a@x.com", "pw", "c1"⟩], [], []⟩ "sec" 0
      (some (generateJWTToken "sec" 0 "u1" "MALLORY" "c9" "gone").1) =
      ⟨true, "User profile retrieved successfully",
        some ⟨"u1", "alice", "a@x.com", "c1"⟩⟩ :=
  get_user_profile_skips_session_checks
    ⟨[⟨"u1", "alice", "a@x.com", "pw", "c1"⟩], [], [⟨"x", "y", "z", "w", 99⟩]⟩
    "sec" 0 (generateJWTToken "sec" 0 "u1" "MALLORY" "c9" "gone").1
    ⟨"u1", "MALLORY", "c9", "gone", accessTokenWindow⟩
    ⟨"u1", "alice", "a@x.com", "pw", "c1"⟩ rfl (by decide) []

/-- C10: every failing `LoginUser` call leaves the store unchanged: no session
is created, replaced or deleted and no user record is modified. -/
theorem login_failure_preserves_store (db : Store) (secret : String) (now : Nat)
    (freshRefresh : String) (req : LoginUserRequest) :
    (loginUser db secret now freshRefresh req).1.success = false →
    (loginUser db secret now freshRefresh req).2 = db := by
  unfold loginUser
  split
  · intro _; rfl
  · split
    · intro _; rfl
    · split
      · intro _; rfl
      · split
        · intro _; rfl
        · split
          · intro _; rfl
          · intro h
            exact Bool.noConfusion h

/-- Concrete exercise of `login_failure_preserves_store`: a wrong-password
login against a populated store returns it untouched. -/
theorem login_failure_preserves_store_witness :
    (loginUser ⟨[⟨"u1", "alice", "a@x.com", hashPassword "pw123", "c1"⟩],
        [⟨"c1", "n", "s"⟩], []⟩ "sec" 0 "fresh"
      ⟨"a@x.com", "WRONG", "c1", "ua"⟩).1.success = false ∧
    (loginUser ⟨[⟨"u1", "alice", "a@x.com", hashPassword "pw123", "c1"⟩],
        [⟨"c1", "n", "s"⟩], []⟩ "sec" 0 "fresh"
      ⟨"a@x.com", "WRONG", "c1", "ua"⟩).2 =
      ⟨[⟨"u1", "alice", "a@x.com", hashPassword "pw123", "c1"⟩],
        [⟨"c1", "n", "s"⟩], []⟩ :=
  ⟨by decide,
   login_failure_preserves_store
     ⟨[⟨"u1", "alice", "a@x.com", hashPassword "pw123", "c1"⟩], [⟨"c1", "n", "s"⟩], []⟩
     "sec" 0 "fresh" ⟨"a@x.com", "WRONG", "c1", "ua"⟩ (by decide)⟩

/-- C7: with an existing client, the three `LoginUser` failure causes —
unknown email, user registered under a different client, and password
verification failure — all yield the identical response: `success = false`
with message "Invalid credentials". -/
theorem login_failures_indistinguishable (db : Store) (secret : String)
    (now : Nat) (freshRefresh : String) (req : LoginUserRequest)
    (he : req.email ≠ "") (hp : req.password ≠ "") (hc : req.clientId ≠ "")
    (hclient : isClientExists db req.clientId = true)
    (hcause : getUserByEmail db req.email = none
      ∨ (∃ u, getUserByEmail db req.email = some u ∧ u.clientId ≠ req.clientId)
      ∨ (∃ u, getUserByEmail db req.email = some u ∧
          checkPasswordHash req.password u.password = false)) :
    (loginUser db secret now freshRefresh req).1 =
      loginFailure "Invalid credentials" := by
  have hreq : ¬(req.email = "" ∨ req.password = "" ∨ req.clientId = "") := by
    simp [he, hp, hc]
  rcases hcause with hnone | ⟨u, hu, hmis⟩ | ⟨u, hu, hpw⟩
  · simp only [loginUser, if_neg hreq, hclient, hnone]
    simp
  · simp only [loginUser, if_neg hreq, hclient, hu]
    simp [hmis]
  · simp only [loginUser, if_neg hreq, hclient, hu]
    by_cases hmis : u.clientId = req.clientId
    · simp [hmis, hpw]
    · simp [hmis]

/-- Concrete exercise of `login_failures_indistinguishable`: unknown email,
cross-tenant email and wrong password give byte-identical responses. -/
theorem login_failures_indistinguishable_witness :
    (loginUser ⟨[⟨"u1", "alice", "a@x.com", hashPassword "pw123", "c2"⟩],
        [⟨"c1", "n", "s"⟩, ⟨"c2", "n", "s"⟩], []⟩ "sec" 0 "f"
      ⟨"nobody@x.com", "pw123", "c1", "ua"⟩).1 = loginFailure "Invalid credentials" ∧
    (loginUser ⟨[⟨"u1", "alice", "a@x.com", hashPassword "pw123", "c2"⟩],
        [⟨"c1", "n", "s"⟩, ⟨"c2", "n", "s"⟩], []⟩ "sec" 0 "f"
      ⟨"a@x.com", "pw123", "c1", "ua"⟩).1 = loginFailure "Invalid credentials" ∧
    (loginUser ⟨[⟨"u1", "alice", "a@x.com", hashPassword "pw123", "c2"⟩],
        [⟨"c1", "n", "s"⟩, ⟨"c2", "n", "s"⟩], []⟩ "sec" 0 "f"
      ⟨"a@x.com", "WRONG", "c2", "ua"⟩).1 = loginFailure "Invalid credentials" :=
  ⟨login_failures_indistinguishable _ "sec" 0 "f" ⟨"nobody@x.com", "pw123", "c1", "ua"⟩
      (by decide) (by decide) (by decide) (by decide) (Or.inl (by decide)),
   login_failures_indistinguishable _ "sec" 0 "f" ⟨"a@x.com", "pw123", "c1", "ua"⟩
      (by decide) (by decide) (by decide) (by decide)
      (Or.inr (Or.inl ⟨⟨"u1", "alice", "a@x.com", hashPassword "pw123", "c2"⟩,
        by decide, by decide⟩)),
   login_failures_indistinguishable _ "sec" 0 "f" ⟨"a@x.com", "WRONG", "c2", "ua"⟩
      (by decide) (by decide) (by decide) (by decide)
      (Or.inr (Or.inr ⟨⟨"u1", "alice", "a@x.com", hashPassword "pw123", "c2"⟩,
        by decide, by decide⟩))⟩

/-- C1: for a credential that decodes (valid signature, unexpired) to a user
that exists and whose record matches the embedded username and client id,
`ValidateToken` succeeds exactly when the active non-expired session of that
`(user, client)` pair exists and carries the refresh value embedded in the
credential; on success it returns the decoded user id and the credential's
expiry.  An absent or rotated session makes validation fail even though the
credential itself is intact. -/
theorem validate_token_session_binding (db : Store) (secret : String)
    (now : Nat) (tok : Token) (c : Claims) (u : User)
    (hdec : validateJWTToken secret now tok = .ok c)
    (huser : getUserByID db c.userID = some u)
    (hname : u.userName = c.username)
    (hcid : u.clientId = c.clientID) :
    ((validateToken db secret now (some tok)).valid = true ↔
      ∃ s, getSessionByUserAndClient db u.userId u.clientId now = some s ∧
        s.refreshToken = c.refreshToken) ∧
    ((validateToken db secret now (some tok)).valid = true →
      (validateToken db secret now (some tok)).userId = c.userID ∧
      (validateToken db secret now (some tok)).expiresAt = c.expiresAt) := by
  have huid : u.userId = c.userID := by
    rw [getUserByID] at huser
    have hb := List.find?_some huser
    simp only [beq_iff_eq] at hb
    exact hb
  have hval : validateToken db secret now (some tok) =
      match getSessionByUserAndClient db u.userId u.clientId now with
      | none => ⟨false, "Invalid session", "", 0⟩
      | some session =>
        if session.refreshToken ≠ c.refreshToken then ⟨false, "Invalid session", "", 0⟩
        else ⟨true, "Token is valid", u.userId, c.expiresAt⟩ := by
    simp only [validateToken, hdec, huser]
    rw [if_neg (not_not_intro hname), if_neg (not_not_intro hcid)]
  rw [hval]
  cases hs : getSessionByUserAndClient db u.userId u.clientId now with
  | none => simp
  | some s =>
    by_cases hr : s.refreshToken = c.refreshToken
    · simp [hr, huid]
    · simp [hr]

/-- Concrete exercise of `validate_token_session_binding`: with a matching
live session the credential validates; the same iff applied to a store whose
session has been rotated to a different refresh value yields failure. -/
theorem validate_token_session_binding_witness :
    (validateToken ⟨[⟨"u1", "alice", "a@x.com", "pw", "c1"⟩], [],
        [⟨"u1", "c1", "r1", "ua", 999⟩]⟩ "sec" 0
      (some (generateJWTToken "sec" 0 "u1" "alice" "c1" "r1").1)).valid = true ∧
    (validateToken ⟨[⟨"u1", "alice", "a@x.com", "pw", "c1"⟩], [],
        [⟨"u1", "c1", "ROTATED", "ua", 999⟩]⟩ "sec" 0
      (some (generateJWTToken "sec" 0 "u1" "alice" "c1" "r1").1)).valid = false :=
  ⟨(validate_token_session_binding
      ⟨[⟨"u1", "alice", "a@x.com", "pw", "c1"⟩], [], [⟨"u1", "c1", "r1", "ua", 999⟩]⟩
      "sec" 0 (generateJWTToken "sec" 0 "u1" "alice" "c1" "r1").1
      ⟨"u1", "alice", "c1", "r1", accessTokenWindow⟩
      ⟨"u1", "alice", "a@x.com", "pw", "c1"⟩ rfl (by decide) rfl rfl).1.mpr
      ⟨⟨"u1", "c1", "r1", "ua", 999⟩, by decide, rfl⟩,
   by
    have h := (validate_token_session_binding
      ⟨[⟨"u1", "alice", "a@x.com", "pw", "c1"⟩], [], [⟨"u1", "c1", "ROTATED", "ua", 999⟩]⟩
      "sec" 0 (generateJWTToken "sec" 0 "u1" "alice" "c1" "r1").1
      ⟨"u1", "alice", "c1", "r1", accessTokenWindow⟩
      ⟨"u1", "alice", "a@x.com", "pw", "c1"⟩ rfl (by decide) rfl rfl).1
    by_cases hv : (validateToken
        ⟨[⟨"u1", "alice", "a@x.com", "pw", "c1"⟩], [], [⟨"u1", "c1", "ROTATED", "ua", 999⟩]⟩
        "sec" 0 (some (generateJWTToken "sec" 0 "u1" "alice" "c1" "r1").1)).valid = true
    · rcases h.mp hv with ⟨s, hs, hr⟩
      have : s = ⟨"u1", "c1", "ROTATED", "ua", 999⟩ := by
        have := List.mem_of_find?_eq_some hs
        simpa using this
      rw [this] at hr
      exact absurd hr (by decide)
    · simpa using hv⟩

/-- C3 counterexample: after a successful logout deletes the only session, a
second `LogoutUser` with the same refresh value does NOT fail with
InvalidToken — it returns success again (gorm's `Delete` reports no error
when zero rows match, so the "Invalid refresh token" branch is unreachable
for a merely missing session). -/
theorem logout_second_call_succeeds :
    (logoutUser ⟨[⟨"u1", "alice", "a@x.com", "pw", "c1"⟩], [⟨"c1", "n", "s"⟩],
        [⟨"u1", "c1", "r1", "ua", 999⟩]⟩ "r1").1 =
      ⟨true, "Logged out successfully"⟩ ∧
    (logoutUser (logoutUser ⟨[⟨"u1", "alice", "a@x.com", "pw", "c1"⟩],
        [⟨"c1", "n", "s"⟩], [⟨"u1", "c1", "r1", "ua", 999⟩]⟩ "r1").2 "r1").1 =
      ⟨true, "Logged out successfully"⟩ := by
  constructor <;> decide

/-- C3 amended: `LogoutUser` with a non-empty refresh value always succeeds;
it deletes every session carrying that refresh value, and when no session
matches (e.g. a second logout with the same value) it still returns success
and leaves the store unchanged. -/
theorem logout_deletes_and_is_idempotent (db : Store) (rt : String)
    (hrt : rt ≠ "") :
    (logoutUser db rt).1 = ⟨true, "Logged out successfully"⟩ ∧
    (logoutUser db rt).2.sessions =
      db.sessions.filter (fun s => !(s.refreshToken == rt)) ∧
    ((∀ s ∈ db.sessions, s.refreshToken ≠ rt) → (logoutUser db rt).2 = db) := by
  simp only [logoutUser, if_neg hrt, deleteSessionByRefreshToken]
  refine ⟨trivial, trivial, ?_⟩
  intro h
  have hfil : db.sessions.filter (fun s => !(s.refreshToken == rt)) = db.sessions := by
    rw [List.filter_eq_self]
    intro s hs
    simpa using h s hs
  rw [hfil]

/-- Concrete exercise of `logout_deletes_and_is_idempotent`: first logout
deletes the matching session; on the emptied store the same call is a no-op
that still succeeds. -/
theorem logout_deletes_and_is_idempotent_witness :
    (logoutUser ⟨[], [], [⟨"u1", "c1", "r1", "ua", 999⟩]⟩ "r1").1 =
      ⟨true, "Logged out successfully"⟩ ∧
    (logoutUser ⟨[], [], [⟨"u1", "c1", "r1", "ua", 999⟩]⟩ "r1").2.sessions = [] ∧
    (logoutUser ⟨[], [], []⟩ "r1").2 = ⟨[], [], []⟩ :=
  ⟨(logout_deletes_and_is_idempotent ⟨[], [], [⟨"u1", "c1", "r1", "ua", 999⟩]⟩
      "r1" (by decide)).1,
   (logout_deletes_and_is_idempotent ⟨[], [], [⟨"u1", "c1", "r1", "ua", 999⟩]⟩
      "r1" (by decide)).2.1,
   (logout_deletes_and_is_idempotent ⟨[], [], []⟩ "r1" (by decide)).2.2
      (by intro s hs; cases hs)⟩

/-- C4 counterexample: an email registered only under client "c2" makes
`RegisterUser` for the distinct existing client "c1" fail with "Email already
registered" — the `IsEmailExists` probe filters by email alone, so uniqueness
is global, not scoped per client. -/
theorem register_cross_client_email_rejected :
    (registerUser ⟨[⟨"u1", "alice", "taken@x.com", "pw", "c2"⟩],
        [⟨"c1", "n", "s"⟩, ⟨"c2", "n", "s"⟩], []⟩ "new-id"
      ⟨"bob", "taken@x.com", "password123", "c1"⟩).1 =
      ⟨false, "Email already registered", ""⟩ := by
  decide

/-- C4 amended: for a well-formed request naming an existing client,
`RegisterUser` fails with "Email already registered" exactly when the email is
already registered under ANY client — uniqueness is global across clients. -/
theorem register_email_uniqueness_is_global (db : Store) (genUserId : String)
    (req : RegisterUserRequest)
    (hval : validateUserRegistration req = none)
    (hclient : isClientExists db req.clientId = true) :
    (registerUser db genUserId req).1 = ⟨false, "Email already registered", ""⟩ ↔
      (∃ u ∈ db.users, u.emailId = req.email) := by
  have hex : isEmailExists db req.email = true ↔ ∃ u ∈ db.users, u.emailId = req.email := by
    simp [isEmailExists]
  simp only [registerUser, hval]
  rw [if_neg (not_not_intro hclient)]
  by_cases h : isEmailExists db req.email = true
  · rw [if_pos h]
    simp [hex.mp h]
  · rw [if_neg h]
    simp only [RegisterUserResponse.mk.injEq]
    constructor
    · intro hcontra
      exact absurd hcontra.1 (by simp)
    · intro hcontra
      exact absurd (hex.mpr hcontra) h

/-- Concrete exercise of `register_email_uniqueness_is_global`: a fresh email
registers successfully (the conflict response arises exactly when a user with
that email exists somewhere). -/
theorem register_email_uniqueness_is_global_witness :
    ¬((registerUser ⟨[⟨"u1", "alice", "taken@x.com", "pw", "c2"⟩],
        [⟨"c1", "n", "s"⟩, ⟨"c2", "n", "s"⟩], []⟩ "new-id"
      ⟨"bob", "fresh@x.com", "password123", "c1"⟩).1 =
      ⟨false, "Email already registered", ""⟩) := by
  intro hcontra
  rcases (register_email_uniqueness_is_global
      ⟨[⟨"u1", "alice", "taken@x.com", "pw", "c2"⟩],
        [⟨"c1", "n", "s"⟩, ⟨"c2", "n", "s"⟩], []⟩ "new-id"
      ⟨"bob", "fresh@x.com", "password123", "c1"⟩
      (by decide) (by decide)).mp hcontra with ⟨u, hu, hemail⟩
  simp only [List.mem_singleton] at hu
  rw [hu] at hemail
  exact absurd hemail (by decide)

/-- C6 counterexample: a credential whose embedded username ("MALLORY") does
not match the current user record ("alice") is NOT rejected by
`ChangePassword`: with the correct current password the call succeeds and
changes state, so the username/client-id cross-checks of `ValidateToken` are
absent here. -/
theorem change_password_accepts_mismatched_claims :
    (changePassword ⟨[⟨"u1", "alice", "a@x.com", hashPassword "oldpass123", "c1"⟩],
        [⟨"c1", "n", "s"⟩], [⟨"u1", "c1", "r1", "ua", 999⟩]⟩ "sec" 0
      (some (generateJWTToken "sec" 0 "u1" "MALLORY" "OTHER-CLIENT" "r1").1)
      "oldpass123" "newpass123").1 =
      ⟨true, "Password changed successfully. Please log in again."⟩ := by
  decide

/-- C6 amended: `ChangePassword` checks only that the credential decodes
(signature, expiry) and that the decoded user id resolves to an existing
user; it performs no username or client-id cross-check against the user
record, so any such mismatch is ignored and the call succeeds whenever the
current password verifies. -/
theorem change_password_skips_claim_crosschecks (db : Store) (secret : String)
    (now : Nat) (tok : Token) (c : Claims) (u : User)
    (currentPassword newPassword : String)
    (hcur : currentPassword ≠ "") (hnew : newPassword ≠ "")
    (hdec : validateJWTToken secret now tok = .ok c)
    (huser : getUserByID db c.userID = some u)
    (hpw : checkPasswordHash currentPassword u.password = true) :
    (changePassword db secret now (some tok) currentPassword newPassword).1 =
      ⟨true, "Password changed successfully. Please log in again."⟩ := by
  have hreq : ¬((some tok : Option Token) = none ∨ currentPassword = "" ∨
      newPassword = "") := by
    simp [hcur, hnew]
  simp only [changePassword, if_neg hreq, hdec, huser]
  rw [if_neg (not_not_intro hpw)]

/-- Concrete exercise of `change_password_skips_claim_crosschecks`: applied
with a credential carrying a mismatched username and client id. -/
theorem change_password_skips_claim_crosschecks_witness :
    (changePassword ⟨[⟨"u1", "alice", "a@x.com", hashPassword "oldpass123", "c1"⟩],
        [], []⟩ "sec" 0
      (some (generateJWTToken "sec" 0 "u1" "MALLORY" "OTHER-CLIENT" "r1").1)
      "oldpass123" "newpass123").1 =
      ⟨true, "Password changed successfully. Please log in again."⟩ :=
  change_password_skips_claim_crosschecks
    ⟨[⟨"u1", "alice", "a@x.com", hashPassword "oldpass123", "c1"⟩], [], []⟩
    "sec" 0 (generateJWTToken "sec" 0 "u1" "MALLORY" "OTHER-CLIENT" "r1").1
    ⟨"u1", "MALLORY", "OTHER-CLIENT", "r1", accessTokenWindow⟩
    ⟨"u1", "alice", "a@x.com", hashPassword "oldpass123", "c1"⟩
    "oldpass123" "newpass123" (by decide) (by decide) rfl (by decide) (by decide)

/-- C5: a successful `ChangePassword` deletes every session of the user
across all clients: no session of that user survives, any refresh value that
was held only by that user's sessions no longer refreshes, and any access
credential decoding to that user id no longer validates. -/
theorem change_password_invalidates_all_sessions (db : Store) (secret : String)
    (now : Nat) (tok : Token) (c : Claims) (u : User)
    (currentPassword newPassword : String)
    (hcur : currentPassword ≠ "") (hnew : newPassword ≠ "")
    (hdec : validateJWTToken secret now tok = .ok c)
    (huser : getUserByID db c.userID = some u)
    (hpw : checkPasswordHash currentPassword u.password = true) :
    (changePassword db secret now (some tok) currentPassword newPassword).1.success = true ∧
    (∀ s ∈ (changePassword db secret now (some tok) currentPassword newPassword).2.sessions,
      s.userId ≠ u.userId) ∧
    (∀ req : RefreshTokenRequest,
      (∀ s ∈ db.sessions, s.refreshToken = req.refreshToken → s.userId = u.userId) →
      ∀ secret₂ fresh₂ : String, ∀ now₂ : Nat,
        (refreshToken (changePassword db secret now (some tok) currentPassword newPassword).2
          secret₂ now₂ fresh₂ req).1.success = false) ∧
    (∀ now₂ : Nat, ∀ tok₂ : Token, ∀ c₂ : Claims,
      validateJWTToken secret now₂ tok₂ = .ok c₂ → c₂.userID = u.userId →
      (validateToken (changePassword db secret now (some tok) currentPassword newPassword).2
        secret now₂ (some tok₂)).valid = false) := by
  have hreq : ¬((some tok : Option Token) = none ∨ currentPassword = "" ∨
      newPassword = "") := by
    simp [hcur, hnew]
  have hres : changePassword db secret now (some tok) currentPassword newPassword =
      (⟨true, "Password changed successfully. Please log in again."⟩,
        deleteAllUserSessions (updateUser db { u with password := hashPassword newPassword })
          u.userId) := by
    simp only [changePassword, if_neg hreq, hdec, huser]
    rw [if_neg (not_not_intro hpw)]
  rw [hres]
  have hsess : (deleteAllUserSessions
      (updateUser db { u with password := hashPassword newPassword }) u.userId).sessions =
      db.sessions.filter (fun s => !(s.userId == u.userId)) := by
    simp only [deleteAllUserSessions, updateUser_sessions]
  refine ⟨rfl, ?_, ?_, ?_⟩
  · intro s hs
    rw [hsess] at hs
    have hflt := (List.mem_filter.mp hs).2
    simpa using hflt
  · intro req honly secret₂ fresh₂ now₂
    by_cases hempty : req.refreshToken = "" ∨ req.clientId = ""
    · simp [refreshToken, hempty, refreshFailure]
    · have hnone : getSessionByRefreshToken
          (deleteAllUserSessions
            (updateUser db { u with password := hashPassword newPassword }) u.userId)
          req.refreshToken now₂ = none := by
        rw [getSessionByRefreshToken, List.find?_eq_none]
        intro s hsmem
        rw [hsess] at hsmem
        obtain ⟨hmem, hflt⟩ := List.mem_filter.mp hsmem
        simp only [Bool.and_eq_true, beq_iff_eq, decide_eq_true_eq, not_and]
        intro hrt
        have := honly s hmem hrt
        simp [this] at hflt
      simp only [refreshToken, if_neg hempty, hnone]
      rfl
  · intro now₂ tok₂ c₂ hdec₂ hc₂
    simp only [validateToken, hdec₂]
    cases hu₃ : getUserByID
        (deleteAllUserSessions
          (updateUser db { u with password := hashPassword newPassword }) u.userId)
        c₂.userID with
    | none => rfl
    | some u₃ =>
      dsimp only
      have hu₃id : u₃.userId = c₂.userID := by
        rw [getUserByID] at hu₃
        have hb := List.find?_some hu₃
        simp only [beq_iff_eq] at hb
        exact hb
      by_cases hn : u₃.userName ≠ c₂.username
      · rw [if_pos hn]
      · rw [if_neg hn]
        by_cases hcd : u₃.clientId ≠ c₂.clientID
        · rw [if_pos hcd]
        · rw [if_neg hcd]
          have hsnone : getSessionByUserAndClient
              (deleteAllUserSessions
                (updateUser db { u with password := hashPassword newPassword }) u.userId)
              u₃.userId u₃.clientId now₂ = none := by
            rw [getSessionByUserAndClient, List.find?_eq_none]
            intro s hsmem
            rw [hsess] at hsmem
            obtain ⟨hmem, hflt⟩ := List.mem_filter.mp hsmem
            simp only [Bool.and_eq_true, beq_iff_eq, decide_eq_true_eq, not_and]
            intro hkey
            have hsu : s.userId = u.userId := by
              rw [hkey.1, hu₃id, hc₂]
            simp [hsu] at hflt
          rw [hsnone]

/-- Concrete exercise of `change_password_invalidates_all_sessions`: after
changing the password, the user's sessions under both clients are gone, the
old refresh value no longer refreshes and the old access credential no longer
validates. -/
theorem change_password_invalidates_all_sessions_witness :
    (changePassword ⟨[⟨"u1", "alice", "a@x.com", hashPassword "oldpass123", "c1"⟩],
        [], [⟨"u1", "c1", "r1", "ua", 999⟩, ⟨"u1", "c2", "r2", "ua", 999⟩]⟩ "sec" 0
      (some (generateJWTToken "sec" 0 "u1" "alice" "c1" "r1").1)
      "oldpass123" "newpass123").1.success = true ∧
    (refreshToken (changePassword
        ⟨[⟨"u1", "alice", "a@x.com", hashPassword "oldpass123", "c1"⟩],
          [], [⟨"u1", "c1", "r1", "ua", 999⟩, ⟨"u1", "c2", "r2", "ua", 999⟩]⟩ "sec" 0
        (some (generateJWTToken "sec" 0 "u1" "alice" "c1" "r1").1)
        "oldpass123" "newpass123").2 "sec" 50 "fresh" ⟨"r1", "c1"⟩).1.success = false ∧
    (validateToken (changePassword
        ⟨[⟨"u1", "alice", "a@x.com", hashPassword "oldpass123", "c1"⟩],
          [], [⟨"u1", "c1", "r1", "ua", 999⟩, ⟨"u1", "c2", "r2", "ua", 999⟩]⟩ "sec" 0
        (some (generateJWTToken "sec" 0 "u1" "alice" "c1" "r1").1)
        "oldpass123" "newpass123").2 "sec" 50
      (some (generateJWTToken "sec" 0 "u1" "alice" "c1" "r1").1)).valid = false := by
  have h := change_password_invalidates_all_sessions
    ⟨[⟨"u1", "alice", "a@x.com", hashPassword "oldpass123", "c1"⟩],
      [], [⟨"u1", "c1", "r1", "ua", 999⟩, ⟨"u1", "c2", "r2", "ua", 999⟩]⟩
    "sec" 0 (generateJWTToken "sec" 0 "u1" "alice" "c1" "r1").1
    ⟨"u1", "alice", "c1", "r1", accessTokenWindow⟩
    ⟨"u1", "alice", "a@x.com", hashPassword "oldpass123", "c1"⟩
    "oldpass123" "newpass123" (by decide) (by decide) rfl (by decide) (by decide)
  refine ⟨h.1, ?_, ?_⟩
  · exact h.2.2.1 ⟨"r1", "c1"⟩ (by decide) "sec" "fresh" 50
  · exact h.2.2.2 50 (generateJWTToken "sec" 0 "u1" "alice" "c1" "r1").1
      ⟨"u1", "alice", "c1", "r1", accessTokenWindow⟩ rfl rfl

/-- C2: a `RefreshToken` call whose refresh value matches a non-expired
session of a matching client returns a new refresh value different from the
input, replaces the session's refresh value with the new one and extends its
expiry to `now + 7 days`; afterwards a second `RefreshToken` presenting the
original, now-superseded value fails with "Invalid refresh token".
The freshness of the generated value (`freshRefresh` differs from the
presented one) models the spec's random high-entropy generator; the pairwise
distinctness hypothesis is the store's unique index on `refresh_token`. -/
theorem refresh_token_rotation (db : Store) (secret : String) (now : Nat)
    (freshRefresh : String) (req : RefreshTokenRequest) (s : Session) (u : User)
    (hne : req.refreshToken ≠ "") (hcne : req.clientId ≠ "")
    (hdistinct : List.Pairwise (fun a b => a.refreshToken ≠ b.refreshToken) db.sessions)
    (hsess : getSessionByRefreshToken db req.refreshToken now = some s)
    (huser : getUserByID db s.userId = some u)
    (hclient : u.clientId = req.clientId)
    (hfresh : freshRefresh ≠ req.refreshToken) :
    (refreshToken db secret now freshRefresh req).1.success = true ∧
    (refreshToken db secret now freshRefresh req).1.refreshToken = freshRefresh ∧
    freshRefresh ≠ req.refreshToken ∧
    getSessionByUserAndClient (refreshToken db secret now freshRefresh req).2
        s.userId s.clientId now =
      some { s with refreshToken := freshRefresh, expiresAt := now + sevenDays } ∧
    (∀ secret₂ fresh₂ : String, ∀ now₂ : Nat,
      (refreshToken (refreshToken db secret now freshRefresh req).2
        secret₂ now₂ fresh₂ req).1 = refreshFailure "Invalid refresh token") := by
  have hempty : ¬(req.refreshToken = "" ∨ req.clientId = "") := by simp [hne, hcne]
  have hsess' := hsess
  rw [getSessionByRefreshToken] at hsess'
  have hmem : s ∈ db.sessions := List.mem_of_find?_eq_some hsess'
  have hps := List.find?_some hsess'
  simp only [Bool.and_eq_true, beq_iff_eq, decide_eq_true_eq] at hps
  obtain ⟨hsrt, hsexp⟩ := hps
  set s₂ : Session :=
    { s with refreshToken := freshRefresh, expiresAt := now + sevenDays } with hs₂def
  have hres : refreshToken db secret now freshRefresh req =
      (⟨true, "Token refreshed successfully",
        some (generateJWTToken secret now u.userId u.userName u.clientId freshRefresh).1,
        freshRefresh,
        (generateJWTToken secret now u.userId u.userName u.clientId freshRefresh).2⟩,
       createOrUpdateSession db s₂) := by
    simp only [refreshToken, if_neg hempty, hsess, huser]
    rw [if_neg (not_not_intro hclient)]
  have hany : db.sessions.any
      (fun t => t.userId == s₂.userId && t.clientId == s₂.clientId) = true := by
    rw [List.any_eq_true]
    exact ⟨s, hmem, by simp [hs₂def]⟩
  have hupd : (createOrUpdateSession db s₂).sessions =
      db.sessions.map
        (fun t => if t.userId == s₂.userId && t.clientId == s₂.clientId then s₂ else t) := by
    simp only [createOrUpdateSession, if_pos hany]
  have hlookup : getSessionByUserAndClient (createOrUpdateSession db s₂)
      s.userId s.clientId now = some s₂ := by
    rw [getSessionByUserAndClient, hupd]
    apply find?_eq_some_unique
    · exact List.mem_map.mpr ⟨s, hmem, by simp [hs₂def]⟩
    · simp [hs₂def, sevenDays]
    · intro x hx hpx
      obtain ⟨t, htmem, hft⟩ := List.mem_map.mp hx
      by_cases hkey : (t.userId == s₂.userId && t.clientId == s₂.clientId) = true
      · rw [if_pos hkey] at hft
        exact hft.symm
      · rw [if_neg hkey] at hft
        exfalso
        apply hkey
        rw [← hft] at hpx
        simp only [Bool.and_eq_true, beq_iff_eq, decide_eq_true_eq] at hpx
        simp [hs₂def, hpx.1.1, hpx.1.2]
  have hgone : ∀ x ∈ db.sessions.map
      (fun t => if t.userId == s₂.userId && t.clientId == s₂.clientId then s₂ else t),
      x.refreshToken ≠ req.refreshToken := by
    intro x hx
    obtain ⟨t, htmem, hft⟩ := List.mem_map.mp hx
    by_cases hkey : (t.userId == s₂.userId && t.clientId == s₂.clientId) = true
    · rw [if_pos hkey] at hft
      rw [← hft]
      simpa [hs₂def] using hfresh
    · rw [if_neg hkey] at hft
      rw [← hft]
      intro hcontra
      have hts : t = s :=
        pairwise_key_inj (fun a => a.refreshToken) hdistinct t htmem s hmem
          (hcontra.trans hsrt.symm)
      apply hkey
      rw [hts]
      simp [hs₂def]
  have hnone₂ : ∀ now₂ : Nat,
      getSessionByRefreshToken (createOrUpdateSession db s₂) req.refreshToken now₂
        = none := by
    intro now₂
    rw [getSessionByRefreshToken, hupd, List.find?_eq_none]
    intro x hx
    simp only [Bool.and_eq_true, beq_iff_eq, not_and]
    intro hrt
    exact absurd hrt (hgone x hx)
  rw [hres]
  refine ⟨rfl, rfl, hfresh, hlookup, ?_⟩
  intro secret₂ fresh₂ now₂
  simp only [refreshToken, if_neg hempty, hnone₂ now₂]

/-- Concrete exercise of `refresh_token_rotation`: rotating "old-r" to
"new-r" updates the session and makes a second refresh with "old-r" fail. -/
theorem refresh_token_rotation_witness :
    (refreshToken ⟨[⟨"u1", "alice", "a@x.com", "pw", "c1"⟩], [],
        [⟨"u1", "c1", "old-r", "ua", 999⟩]⟩ "sec" 0 "new-r" ⟨"old-r", "c1"⟩).1.success
      = true ∧
    (refreshToken ⟨[⟨"u1", "alice", "a@x.com", "pw", "c1"⟩], [],
        [⟨"u1", "c1", "old-r", "ua", 999⟩]⟩ "sec" 0 "new-r"
      ⟨"old-r", "c1"⟩).1.refreshToken = "new-r" ∧
    getSessionByUserAndClient
      (refreshToken ⟨[⟨"u1", "alice", "a@x.com", "pw", "c1"⟩], [],
        [⟨"u1", "c1", "old-r", "ua", 999⟩]⟩ "sec" 0 "new-r" ⟨"old-r", "c1"⟩).2
      "u1" "c1" 0 = some ⟨"u1", "c1", "new-r", "ua", 0 + sevenDays⟩ ∧
    (refreshToken
      (refreshToken ⟨[⟨"u1", "alice", "a@x.com", "pw", "c1"⟩], [],
        [⟨"u1", "c1", "old-r", "ua", 999⟩]⟩ "sec" 0 "new-r" ⟨"old-r", "c1"⟩).2
      "sec2" 5 "x" ⟨"old-r", "c1"⟩).1 = refreshFailure "Invalid refresh token" := by
  have h := refresh_token_rotation
    ⟨[⟨"u1", "alice", "a@x.com", "pw", "c1"⟩], [], [⟨"u1", "c1", "old-r", "ua", 999⟩]⟩
    "sec" 0 "new-r" ⟨"old-r", "c1"⟩ ⟨"u1", "c1", "old-r", "ua", 999⟩
    ⟨"u1", "alice", "a@x.com", "pw", "c1"⟩
    (by decide) (by decide) (by decide) (by decide) (by decide) (by decide) (by decide)
  exact ⟨h.1, h.2.1, h.2.2.2.1, h.2.2.2.2 "sec2" "x" 5⟩

end AuthService
